import Mathlib

/-!
Verification of the SQL query-rewriting engine of `auto_field_trait`
(`src/extract_hook.rs`, the module wired up by `lib.rs`; `query_hook.rs` is a
stale copy that `lib.rs` does not declare).

The embedding models the fragment of the external `sqlparser` AST that the
engine inspects or constructs, together with a renderer mirroring the
`Display` implementations of that fragment.  The external parser itself is
passed to the engine as an explicit function argument, and the ambient
request context (the Rust code reads it through a global function pointer)
is passed explicitly.  Locking (`Arc<RwLock<..>>`) is dropped: the skip set
becomes an explicit value threaded through the operations.
-/

namespace AutoFieldTrait

/-- A single-quote character, used by the SQL string-literal renderer. -/
def squote : Char := Char.ofNat 39

/-- ASCII lowercasing of one character, as Rust's `to_ascii_lowercase`. -/
def asciiLowerChar (c : Char) : Char :=
  if 'A' ≤ c ∧ c ≤ 'Z' then Char.ofNat (c.toNat + 32) else c

/-- ASCII lowercasing of a string.  Models Rust `str::to_lowercase` /
`eq_ignore_ascii_case` on the ASCII fragment (the engine's inputs are SQL
keywords and identifiers). -/
def asciiLower (s : String) : String := ⟨s.data.map asciiLowerChar⟩

/-- ASCII uppercasing of one character. -/
def asciiUpperChar (c : Char) : Char :=
  if 'a' ≤ c ∧ c ≤ 'z' then Char.ofNat (c.toNat - 32) else c

/-- ASCII uppercasing of a string, modelling Rust `str::to_uppercase` on the
ASCII fragment. -/
def asciiUpper (s : String) : String := ⟨s.data.map asciiUpperChar⟩

/-- Rust `str::eq_ignore_ascii_case`. -/
def eqIgnoreAsciiCase (a b : String) : Bool := asciiLower a == asciiLower b

/-- Rust `str::trim`: whitespace removed from both ends. -/
def rustTrim (s : String) : String :=
  ⟨((s.data.dropWhile Char.isWhitespace).reverse.dropWhile Char.isWhitespace).reverse⟩

/-- Rust `str::starts_with` for a string pattern. -/
def strStartsWith (s p : String) : Bool := p.data.isPrefixOf s.data

/-- Rust `str::ends_with` for a string pattern. -/
def strEndsWith (s p : String) : Bool := p.data.reverse.isPrefixOf s.data.reverse

/-- The slice `s[1..s.len()-1]`: first and last character removed. -/
def strDropEnds (s : String) : String := ⟨(s.data.drop 1).dropLast⟩

/-- `sqlparser::ast::Ident`: an identifier with an optional quote style. -/
structure Ident where
  value : String
  quoteStyle : Option Char

/-- `sqlparser::ast::TableAlias` (the `columns` list, never touched by the
engine, is omitted). -/
structure TableAlias where
  name : Ident

/-- `sqlparser::ast::Value`, restricted to the variants the engine constructs
or meets in its inputs. -/
inductive Value where
  | number (s : String) (long : Bool)
  | singleQuotedString (s : String)

/-- `sqlparser::ast::BinaryOperator`, restricted to the operators the engine
constructs. -/
inductive BinaryOperator where
  | eq
  | and

/-- `sqlparser::ast::Expr`, restricted to the variants the engine constructs
or inspects.  A `function` carries its rendered argument text, because
`is_count_query` only looks at the function's `Display` output; `raw` stands
for any other expression form, carried by its rendered text (the engine
treats pre-existing WHERE conditions opaquely). -/
inductive Expr where
  | identifier (i : Ident)
  | compoundIdentifier (ids : List Ident)
  | binaryOp (left : Expr) (op : BinaryOperator) (right : Expr)
  | value (v : Value)
  | nested (e : Expr)
  | function (name : List Ident) (argsRendered : String)
  | isNull (e : Expr)
  | raw (rendered : String)

/-- `sqlparser::ast::SelectItem`. -/
inductive SelectItem where
  | unnamedExpr (e : Expr)
  | exprWithAlias (e : Expr) (aliasId : Ident)
  | wildcard
  | qualifiedWildcard (qualifier : List Ident)

mutual

/-- `sqlparser::ast::Select`, restricted to the fields the engine reads or
writes: projection, FROM list and WHERE clause (`selection`). -/
inductive Select where
  | mk (projection : List SelectItem) (tables : FromList) (selection : Option Expr)

/-- The FROM list of a `Select` (`Vec<TableWithJoins>`). -/
inductive FromList where
  | nil
  | cons (head : TableWithJoins) (tail : FromList)

/-- `sqlparser::ast::TableWithJoins` (the engine only ever reads
`.relation`; joins are untouched and omitted). -/
inductive TableWithJoins where
  | mk (relation : TableFactor)

/-- `sqlparser::ast::TableFactor`, restricted to the variants the engine
distinguishes: a named table, a derived subquery, or anything else carried
by its rendered text. -/
inductive TableFactor where
  | table (name : List Ident) (aliasOpt : Option TableAlias)
  | derived (subquery : Query) (aliasOpt : Option TableAlias)
  | factorOther (rendered : String)

/-- `sqlparser::ast::Query` (the engine only touches `.body`; `ORDER BY`,
`LIMIT` etc. are absent from the modelled fragment). -/
inductive Query where
  | mk (body : SetExpr)

/-- `sqlparser::ast::SetExpr`, restricted to the variants the engine
distinguishes. -/
inductive SetExpr where
  | selectBody (s : Select)
  | queryBody (q : Query)
  | otherBody (rendered : String)

end

/-- The projection list of a `Select`. -/
def Select.projection : Select → List SelectItem
  | .mk p _ _ => p

/-- The FROM list of a `Select`. -/
def Select.tables : Select → FromList
  | .mk _ t _ => t

/-- The WHERE clause of a `Select`. -/
def Select.selection : Select → Option Expr
  | .mk _ _ s => s

/-- `sqlparser::ast::Statement`: a query, or any other statement kind
carried by its rendered text. -/
inductive Statement where
  | query (q : Query)
  | other (rendered : String)

/-! ### Rendering (the `Display` implementations of the modelled fragment) -/

/-- `Display` for `Ident`: the quote character on both sides when quoted. -/
def renderIdent (i : Ident) : String :=
  match i.quoteStyle with
  | some q => String.singleton q ++ i.value ++ String.singleton q
  | none => i.value

/-- `Display` for `ObjectName`: dot-separated identifiers. -/
def renderObjectName (ids : List Ident) : String :=
  String.intercalate "." (ids.map renderIdent)

/-- `sqlparser`'s `escape_single_quote_string`: each single quote doubled. -/
def escapeSingleQuote (s : String) : String :=
  s.data.foldl (fun acc c => if c = squote then acc ++ "''" else acc.push c) ""

/-- `Display` for `Value`. -/
def renderValue : Value → String
  | .number s _ => s
  | .singleQuotedString s => "'" ++ escapeSingleQuote s ++ "'"

/-- `Display` for `BinaryOperator`. -/
def renderOp : BinaryOperator → String
  | .eq => "="
  | .and => "AND"

/-- `Display` for `Expr` on the modelled fragment. -/
def renderExpr : Expr → String
  | .identifier i => renderIdent i
  | .compoundIdentifier ids => String.intercalate "." (ids.map renderIdent)
  | .binaryOp l op r => renderExpr l ++ " " ++ renderOp op ++ " " ++ renderExpr r
  | .value v => renderValue v
  | .nested e => "(" ++ renderExpr e ++ ")"
  | .function name args => renderObjectName name ++ "(" ++ args ++ ")"
  | .isNull e => renderExpr e ++ " IS NULL"
  | .raw s => s

/-- `Display` for `SelectItem`. -/
def renderSelectItem : SelectItem → String
  | .unnamedExpr e => renderExpr e
  | .exprWithAlias e a => renderExpr e ++ " AS " ++ renderIdent a
  | .wildcard => "*"
  | .qualifiedWildcard q => renderObjectName q ++ ".*"

/-- Rendering of an optional table alias: `" AS name"` when present. -/
def renderAliasSuffix : Option TableAlias → String
  | some a => " AS " ++ renderIdent a.name
  | none => ""

mutual

/-- `Display` for `Select` on the modelled fragment:
`SELECT <projection> [FROM <tables>] [WHERE <selection>]`. -/
def renderSelect : Select → String
  | .mk proj tbls sel =>
    "SELECT " ++ String.intercalate ", " (proj.map renderSelectItem)
      ++ (match tbls with
          | .nil => ""
          | .cons t rest => " FROM " ++ renderFromList (.cons t rest))
      ++ (match sel with
          | some e => " WHERE " ++ renderExpr e
          | none => "")
termination_by structural s => s

/-- Comma-separated rendering of a FROM list. -/
def renderFromList : FromList → String
  | .nil => ""
  | .cons t .nil => renderTableWithJoins t
  | .cons t (.cons u rest) =>
    renderTableWithJoins t ++ ", " ++ renderFromList (.cons u rest)
termination_by structural fl => fl

/-- `Display` for `TableWithJoins` (no joins in the modelled fragment). -/
def renderTableWithJoins : TableWithJoins → String
  | .mk rel => renderTableFactor rel
termination_by structural t => t

/-- `Display` for `TableFactor`. -/
def renderTableFactor : TableFactor → String
  | .table name al => renderObjectName name ++ renderAliasSuffix al
  | .derived sub al => "(" ++ renderQuery sub ++ ")" ++ renderAliasSuffix al
  | .factorOther s => s
termination_by structural tf => tf

/-- `Display` for `Query` (just its body in the modelled fragment). -/
def renderQuery : Query → String
  | .mk body => renderSetExpr body
termination_by structural q => q

/-- `Display` for `SetExpr`: a nested query is parenthesized. -/
def renderSetExpr : SetExpr → String
  | .selectBody s => renderSelect s
  | .queryBody q => "(" ++ renderQuery q ++ ")"
  | .otherBody s => s
termination_by structural se => se

end

/-- `Display` for `Statement`. -/
def renderStatement : Statement → String
  | .query q => renderQuery q
  | .other s => s

/-! ### The hook (`DefaultQueryHook` of `src/extract_hook.rs`) -/

/-- `AutoFieldContext` of `src/auto_field_trait.rs`: the ambient request
identity.  The Rust code obtains it through a registered global function
pointer (`AutoFieldContext::current_safe`); the embedding passes it
explicitly to every operation that reads it. -/
structure AutoFieldContext where
  user_id : Option String
  user_name : Option String
  real_name : Option String
  tenant_id : Option String
  tenant_name : Option String

/-- `AutoFieldContext::default()`: every field absent (this is also what the
default context getter returns before any registration). -/
def AutoFieldContext.empty : AutoFieldContext := ⟨none, none, none, none, none⟩

/-- `DefaultQueryHook` of `src/extract_hook.rs`.  The `Arc<RwLock<HashSet>>`
around the skip set is dropped: the set is modelled as a list of strings with
set semantics, threaded by value. -/
structure DefaultQueryHook where
  enable_soft_delete : Bool
  enable_tenant_filter : Bool
  skip_tables : List String

/-- `DefaultQueryHook::add_skip_table`: insert the lowercased name. -/
def add_skip_table (h : DefaultQueryHook) (table_name : String) : DefaultQueryHook :=
  { h with skip_tables :=
      if h.skip_tables.contains (asciiLower table_name) then h.skip_tables
      else asciiLower table_name :: h.skip_tables }

/-- `DefaultQueryHook::remove_skip_table`: remove the lowercased name. -/
def remove_skip_table (h : DefaultQueryHook) (table_name : String) : DefaultQueryHook :=
  { h with skip_tables := h.skip_tables.filter (fun t => t != asciiLower table_name) }

/-- `DefaultQueryHook::should_skip_table`: membership of the lowercased name. -/
def should_skip_table (h : DefaultQueryHook) (table_name : String) : Bool :=
  h.skip_tables.contains (asciiLower table_name)

mutual

/-- `DefaultQueryHook::extract_table_name`. -/
def extract_table_name (q : Query) : Option String :=
  match q with
  | .mk body => extract_table_name_from_set_expr body
termination_by structural q

/-- `DefaultQueryHook::extract_table_name_from_set_expr` (the `extract_hook.rs`
version, which strips a surrounding pair of double quotes): the lowercased
rendering of the last identifier of the first FROM relation's name, recursion
into a derived first relation, `none` otherwise. -/
def extract_table_name_from_set_expr : SetExpr → Option String
  | .selectBody (.mk _ tbls _) =>
    match tbls with
    | .cons (.mk rel) _ =>
      match rel with
      | .table name _ =>
        match name.getLast? with
        | some lastIdent =>
          let tn := asciiLower (renderIdent lastIdent)
          let tn := if strStartsWith tn "\"" && strEndsWith tn "\"" then strDropEnds tn else tn
          if tn ≠ "" then some tn else none
        | none => none
      | .derived sub _ => extract_table_name sub
      | .factorOther _ => none
    | .nil => none
  | .queryBody q => extract_table_name q
  | .otherBody _ => none
termination_by structural se => se

end

/-- `DefaultQueryHook::is_count_query`: the SELECT list is exactly one item
whose expression is a function named `COUNT` (case-insensitively, judged on
its last name segment) and whose rendered form is `COUNT(*)`
(case-insensitively; the source tests the same thing twice, once per spelling). -/
def is_count_query (s : Select) : Bool :=
  match s with
  | .mk proj _ _ =>
    match proj with
    | [item] =>
      match item with
      | .exprWithAlias e _ | .unnamedExpr e =>
        match e with
        | .function name args =>
          if (match name.getLast? with
              | some i => eqIgnoreAsciiCase (renderIdent i) "COUNT"
              | none => false) then
            let func_str := renderExpr (.function name args)
            eqIgnoreAsciiCase func_str "COUNT(*)" || eqIgnoreAsciiCase func_str "count(*)"
          else false
        | _ => false
      | _ => false
    | _ => false

/-- `DefaultQueryHook::extract_table_alias_or_name`: the rendered alias of the
first FROM relation when it is a plain table carrying one, else `none`. -/
def extract_table_alias_or_name (s : Select) : Option String :=
  match s with
  | .mk _ tbls _ =>
    match tbls with
    | .nil => none
    | .cons (.mk rel) _ =>
      match rel with
      | .table _ al =>
        match al with
        | some a => some (renderIdent a.name)
        | none => none
      | _ => none

/-- `DefaultQueryHook::create_field_expr`: `alias.field` as a compound
identifier when an alias is given, else a bare identifier (`Ident::new`
creates unquoted identifiers). -/
def create_field_expr (field_name : String) (table_alias : Option String) : Expr :=
  match table_alias with
  | some al => .compoundIdentifier [⟨al, none⟩, ⟨field_name, none⟩]
  | none => .identifier ⟨field_name, none⟩

/-- The predicate list built inside `add_conditions_to_select` (lines
242-269 of `extract_hook.rs`): the soft-delete condition when enabled,
then the tenant condition when enabled and the context carries a non-empty
tenant id. -/
def build_conditions (h : DefaultQueryHook) (ctx : AutoFieldContext)
    (table_alias : Option String) : List Expr :=
  (if h.enable_soft_delete then
    [Expr.binaryOp (create_field_expr "delete_flag" table_alias) .eq
      (.value (.number "0" false))]
   else []) ++
  (if h.enable_tenant_filter then
    match ctx.tenant_id with
    | some tenant_id =>
      if tenant_id ≠ "" then
        [Expr.binaryOp (create_field_expr "tenant_id" table_alias) .eq
          (.value (.singleQuotedString tenant_id))]
      else []
    | none => []
   else [])

/-- The combination step of `add_conditions_to_select` (lines 272-283):
no condition yields nothing, a single condition stands alone, two or more
are left-folded with `AND` and wrapped in a single `Nested` group. -/
def combine_conditions : List Expr → Option Expr
  | [] => none
  | [c] => some c
  | c :: rest => some (.nested (rest.foldl (fun l r => Expr.binaryOp l .and r) c))

/-- `DefaultQueryHook::add_conditions_to_select` (lines 238-298): build the
predicates, and when any exist, `AND` the combined group onto the right of an
existing WHERE clause or install it as the WHERE clause. -/
def add_conditions_to_select (h : DefaultQueryHook) (ctx : AutoFieldContext)
    (s : Select) : Select :=
  let table_alias := extract_table_alias_or_name s
  match combine_conditions (build_conditions h ctx table_alias) with
  | none => s
  | some combined =>
    match s with
    | .mk proj tbls sel =>
      match sel with
      | some selection => .mk proj tbls (some (.binaryOp selection .and combined))
      | none => .mk proj tbls (some combined)

mutual

/-- `DefaultQueryHook::add_conditions_to_query` (lines 135-157): for a
`COUNT(*)` select, recurse into every derived FROM relation and leave the
select itself untouched; otherwise hand the query body to
`add_conditions_to_set_expr` — whose case split on the body is inlined here
(select / nested query / other) so the recursion is structural. -/
def add_conditions_to_query (h : DefaultQueryHook) (ctx : AutoFieldContext)
    (q : Query) : Query :=
  match q with
  | .mk (.selectBody s) =>
    if is_count_query s then
      match s with
      | .mk proj tbls sel =>
        .mk (.selectBody (.mk proj (add_conditions_to_from_list h ctx tbls) sel))
    else .mk (.selectBody (add_conditions_to_select h ctx s))
  | .mk (.queryBody inner) => .mk (.queryBody (add_conditions_to_query h ctx inner))
  | .mk (.otherBody s) => .mk (.otherBody s)
termination_by structural q

/-- The loop over `select.from` inside the `COUNT(*)` branch of
`add_conditions_to_query`: each derived relation's subquery is rewritten
recursively, all other relations are left untouched. -/
def add_conditions_to_from_list (h : DefaultQueryHook) (ctx : AutoFieldContext)
    (fl : FromList) : FromList :=
  match fl with
  | .nil => .nil
  | .cons (.mk rel) rest =>
    match rel with
    | .derived sub al =>
      .cons (.mk (.derived (add_conditions_to_query h ctx sub) al))
        (add_conditions_to_from_list h ctx rest)
    | other => .cons (.mk other) (add_conditions_to_from_list h ctx rest)
termination_by structural fl

end

/-- `DefaultQueryHook::add_conditions_to_set_expr` (lines 185-199). -/
def add_conditions_to_set_expr (h : DefaultQueryHook) (ctx : AutoFieldContext)
    (se : SetExpr) : SetExpr :=
  match se with
  | .selectBody s => .selectBody (add_conditions_to_select h ctx s)
  | .queryBody q => .queryBody (add_conditions_to_query h ctx q)
  | .otherBody s => .otherBody s

/-- `DbErr` of the hook's result type; the rewriting path never constructs
one, so it only appears in the types below. -/
def DbErr := String

/-- `DefaultQueryHook::add_default_conditions` (lines 59-91).  The call to
`Parser::parse_sql` is replaced by the externally supplied parse outcome for
`sql`.  Parse failure and an empty statement list return the original text;
a skip-listed table returns the original text; otherwise the (possibly
mutated) first parsed statement is re-rendered.  Every path is `Ok`. -/
def add_default_conditions (h : DefaultQueryHook) (ctx : AutoFieldContext)
    (parsed : Except DbErr (List Statement)) (sql : String) : Except DbErr String :=
  match parsed with
  | .ok statements =>
    match statements with
    | [] => .ok sql
    | stmt :: _ =>
      match stmt with
      | .query q =>
        match extract_table_name q with
        | some table_name =>
          if should_skip_table h table_name then .ok sql
          else .ok (renderStatement (.query (add_conditions_to_query h ctx q)))
        | none => .ok (renderStatement stmt)
      | .other _ => .ok (renderStatement stmt)
  | .error _ => .ok sql

/-- `DefaultQueryHook::before_query` (lines 302-323): non-SELECT text is left
alone; otherwise the statement is rewritten and reported as modified exactly
when the result differs textually from the input.  An error from
`add_default_conditions` is swallowed (logged) — the caller always gets `Ok`. -/
def before_query (h : DefaultQueryHook) (ctx : AutoFieldContext)
    (parse : String → Except DbErr (List Statement)) (sql : String) :
    Except DbErr (Option String) :=
  if !(strStartsWith (asciiUpper (rustTrim sql)) "SELECT") then .ok none
  else
    match add_default_conditions h ctx (parse sql) sql with
    | .ok modified_sql => if modified_sql ≠ sql then .ok (some modified_sql) else .ok none
    | .error _ => .ok none

/-! ### Fixtures: concrete hooks, contexts and parse outcomes used by the
concrete parts of the theorems.  Each `parse*` function is the outcome of
`Parser::parse_sql` on the one SQL text it recognizes, spelled as the
modelled AST of that text. -/

/-- A hook with soft-delete filtering on, tenant filtering off, empty skip set. -/
def hookSD : DefaultQueryHook := ⟨true, false, []⟩

/-- A hook with both filters on, empty skip set. -/
def hookST : DefaultQueryHook := ⟨true, true, []⟩

/-- A hook with only tenant filtering on, empty skip set. -/
def hookT : DefaultQueryHook := ⟨false, true, []⟩

/-- The empty request context. -/
def ctx0 : AutoFieldContext := AutoFieldContext.empty

/-- A request context carrying tenant id `acme`. -/
def ctxAcme : AutoFieldContext := ⟨none, none, none, some "acme", none⟩

/-- The inner select of the spec's aggregate-count example:
`SELECT id FROM t WHERE parent_id IS NULL`. -/
def innerC1 : Select :=
  .mk [.unnamedExpr (.identifier ⟨"id", none⟩)]
    (.cons (.mk (.table [⟨"t", none⟩] none)) .nil)
    (some (.isNull (.identifier ⟨"parent_id", none⟩)))

/-- The outer select of the spec's aggregate-count example:
`SELECT COUNT(*) AS n FROM (<innerC1>) AS sub`. -/
def outerC1 : Select :=
  .mk [.exprWithAlias (.function [⟨"COUNT", none⟩] "*") ⟨"n", none⟩]
    (.cons (.mk (.derived (.mk (.selectBody innerC1)) (some ⟨⟨"sub", none⟩⟩))) .nil)
    none

/-- Parse outcome of the spec's aggregate-count example. -/
def parseC1 : String → Except DbErr (List Statement) := fun sql =>
  if sql = "SELECT COUNT(*) AS n FROM (SELECT id FROM t WHERE parent_id IS NULL) AS sub"
  then .ok [.query (.mk (.selectBody outerC1))] else .error "unparsed"

/-- A doubly nested aggregate-count:
`SELECT COUNT(*) FROM (SELECT COUNT(*) FROM (SELECT id FROM t) AS a) AS b`. -/
def nestedCountC1 : Query :=
  .mk (.selectBody (.mk
    [.unnamedExpr (.function [⟨"COUNT", none⟩] "*")]
    (.cons (.mk (.derived
      (.mk (.selectBody (.mk
        [.unnamedExpr (.function [⟨"COUNT", none⟩] "*")]
        (.cons (.mk (.derived
          (.mk (.selectBody (.mk
            [.unnamedExpr (.identifier ⟨"id", none⟩)]
            (.cons (.mk (.table [⟨"t", none⟩] none)) .nil)
            none)))
          (some ⟨⟨"a", none⟩⟩))) .nil)
        none)))
      (some ⟨⟨"b", none⟩⟩))) .nil)
    none))

/-- Parse outcome of the doubly nested aggregate-count example. -/
def parseC1n : String → Except DbErr (List Statement) := fun sql =>
  if sql = "SELECT COUNT(*) FROM (SELECT COUNT(*) FROM (SELECT id FROM t) AS a) AS b"
  then .ok [.query nestedCountC1] else .error "unparsed"

/-- A parse outcome that fails on every input (garbled SQL). -/
def parseFail : String → Except DbErr (List Statement) := fun _ =>
  .error "Expected an SQL statement, found: garbled"

/-- `SELECT COUNT(*) FROM t`: an aggregate count over a plain table. -/
def countNoSubC10 : Select :=
  .mk [.unnamedExpr (.function [⟨"COUNT", none⟩] "*")]
    (.cons (.mk (.table [⟨"t", none⟩] none)) .nil)
    none

/-- Parse outcome of `SELECT COUNT(*) FROM t`. -/
def parseC10 : String → Except DbErr (List Statement) := fun sql =>
  if sql = "SELECT COUNT(*) FROM t"
  then .ok [.query (.mk (.selectBody countNoSubC10))] else .error "unparsed"

/-- The aliased spec example: `SELECT t.* FROM t AS t WHERE t.parent_id IS NULL`. -/
def aliasedC3 : Select :=
  .mk [.qualifiedWildcard [⟨"t", none⟩]]
    (.cons (.mk (.table [⟨"t", none⟩] (some ⟨⟨"t", none⟩⟩))) .nil)
    (some (.isNull (.compoundIdentifier [⟨"t", none⟩, ⟨"parent_id", none⟩])))

/-- Parse outcome of the aliased spec example. -/
def parseC3 : String → Except DbErr (List Statement) := fun sql =>
  if sql = "SELECT t.* FROM t AS t WHERE t.parent_id IS NULL"
  then .ok [.query (.mk (.selectBody aliasedC3))] else .error "unparsed"

/-- Parse outcome of `SELECT * FROM t`. -/
def parseC5 : String → Except DbErr (List Statement) := fun sql =>
  if sql = "SELECT * FROM t"
  then .ok [.query (.mk (.selectBody (.mk [.wildcard]
    (.cons (.mk (.table [⟨"t", none⟩] none)) .nil) none)))]
  else .error "unparsed"

/-! ### Helper lemmas -/

/-- The soft-delete predicate the engine builds: `<qualifier>delete_flag = 0`. -/
def delete_cond (al : Option String) : Expr :=
  .binaryOp (create_field_expr "delete_flag" al) .eq (.value (.number "0" false))

/-- The tenant predicate the engine builds: `<qualifier>tenant_id = '<tid>'`. -/
def tenant_cond (al : Option String) (tid : String) : Expr :=
  .binaryOp (create_field_expr "tenant_id" al) .eq (.value (.singleQuotedString tid))

/-- Whether some FROM entry is a derived subquery. -/
def FromList.hasDerived : FromList → Bool
  | .nil => false
  | .cons (.mk rel) rest =>
    (match rel with | .derived _ _ => true | _ => false) || FromList.hasDerived rest

/-- The COUNT-branch FROM traversal leaves a derived-free FROM list unchanged. -/
theorem add_conditions_to_from_list_no_derived (h : DefaultQueryHook)
    (ctx : AutoFieldContext) :
    ∀ fl : FromList, fl.hasDerived = false → add_conditions_to_from_list h ctx fl = fl
  | .nil, _ => rfl
  | .cons (.mk rel) rest, hd => by
    cases rel with
    | table n a =>
      simp only [FromList.hasDerived, Bool.or_eq_false_iff] at hd
      simp only [add_conditions_to_from_list]
      exact congrArg _ (add_conditions_to_from_list_no_derived h ctx rest hd.2)
    | derived sub al => simp [FromList.hasDerived] at hd
    | factorOther s =>
      simp only [FromList.hasDerived, Bool.or_eq_false_iff] at hd
      simp only [add_conditions_to_from_list]
      exact congrArg _ (add_conditions_to_from_list_no_derived h ctx rest hd.2)

/-! ### Claims -/

/-- C1: for every SELECT whose projection is exactly one item rendering as
`COUNT(*)` (case-insensitive) and whose FROM clause contains a derived
subquery, the rewrite injects the configured predicates into the inner
derived subquery (recursing through nested derived subqueries) and never
attaches any predicate to the outer aggregate query's WHERE clause:
(1) for every count-idiom select, the rewritten query keeps the outer
projection and outer WHERE clause untouched and only rewrites the FROM list
by the derived-subquery traversal; (2) on the spec's example the soft-delete
predicate lands inside the inner subquery's WHERE clause and nowhere else;
(3) on a doubly nested count the predicate lands in the innermost subquery. -/
theorem c1_count_targets_inner_subquery :
    (∀ (h : DefaultQueryHook) (ctx : AutoFieldContext) (s : Select),
      is_count_query s = true →
      add_conditions_to_query h ctx (.mk (.selectBody s)) =
        .mk (.selectBody (.mk s.projection
          (add_conditions_to_from_list h ctx s.tables) s.selection))) ∧
    before_query hookSD ctx0 parseC1
        "SELECT COUNT(*) AS n FROM (SELECT id FROM t WHERE parent_id IS NULL) AS sub" =
      .ok (some
        "SELECT COUNT(*) AS n FROM (SELECT id FROM t WHERE parent_id IS NULL AND delete_flag = 0) AS sub") ∧
    before_query hookSD ctx0 parseC1n
        "SELECT COUNT(*) FROM (SELECT COUNT(*) FROM (SELECT id FROM t) AS a) AS b" =
      .ok (some
        "SELECT COUNT(*) FROM (SELECT COUNT(*) FROM (SELECT id FROM t WHERE delete_flag = 0) AS a) AS b") := by
  refine ⟨?_, rfl, rfl⟩
  intro h ctx s hc
  cases s with
  | mk proj tbls sel =>
    simp [add_conditions_to_query, hc, Select.projection, Select.tables, Select.selection]

/-- Witness for C1: the general part applied to the outer select of the
spec's example. -/
theorem c1_count_targets_inner_subquery_witness :
    add_conditions_to_query hookSD ctx0 (.mk (.selectBody outerC1)) =
      .mk (.selectBody (.mk outerC1.projection
        (add_conditions_to_from_list hookSD ctx0 outerC1.tables) outerC1.selection)) :=
  c1_count_targets_inner_subquery.1 hookSD ctx0 outerC1 rfl

/-- C4: for every input SQL string whose trimmed, uppercased text begins with
`SELECT` and whose parse fails, `before_query` returns `Ok` with "unchanged"
(`none`, no rewritten text) and never an error. -/
theorem c4_parse_failure_is_silently_unchanged
    (h : DefaultQueryHook) (ctx : AutoFieldContext)
    (parse : String → Except DbErr (List Statement)) (sql : String) (e : DbErr)
    (hsel : strStartsWith (asciiUpper (rustTrim sql)) "SELECT" = true)
    (hparse : parse sql = .error e) :
    before_query h ctx parse sql = .ok none := by
  simp [before_query, hsel, hparse, add_default_conditions]

/-- Witness for C4: garbled SQL whose leading keyword is SELECT. -/
theorem c4_parse_failure_is_silently_unchanged_witness :
    before_query hookST ctx0 parseFail "SELECT ]] garbled (((" = .ok none :=
  c4_parse_failure_is_silently_unchanged hookST ctx0 parseFail
    "SELECT ]] garbled (((" "Expected an SQL statement, found: garbled" rfl rfl

/-- C10: for every aggregate-count select (exactly one projection item
rendering as `COUNT(*)`) whose FROM clause contains no derived subquery, the
rewrite injects no predicate anywhere — the query is returned unchanged even
with soft-delete and tenant filtering enabled — and concretely
`SELECT COUNT(*) FROM t` is reported as unchanged by `before_query`. -/
theorem c10_count_without_subquery_injects_nothing :
    (∀ (h : DefaultQueryHook) (ctx : AutoFieldContext) (s : Select),
      is_count_query s = true → s.tables.hasDerived = false →
      add_conditions_to_query h ctx (.mk (.selectBody s)) = .mk (.selectBody s)) ∧
    before_query hookST ctxAcme parseC10 "SELECT COUNT(*) FROM t" = .ok none := by
  refine ⟨?_, rfl⟩
  intro h ctx s hc hd
  cases s with
  | mk proj tbls sel =>
    simp only [Select.tables] at hd
    simp [add_conditions_to_query, hc,
      add_conditions_to_from_list_no_derived h ctx tbls hd]

/-- Witness for C10: the general part applied to `SELECT COUNT(*) FROM t`
with both filters enabled and a tenant id present. -/
theorem c10_count_without_subquery_injects_nothing_witness :
    add_conditions_to_query hookST ctxAcme (.mk (.selectBody countNoSubC10)) =
      .mk (.selectBody countNoSubC10) :=
  c10_count_without_subquery_injects_nothing.1 hookST ctxAcme countNoSubC10 rfl rfl

/-- C2: whenever the rewrite injects predicates into a select (first FROM
relation an unaliased table, both filters on and a non-empty tenant id, so
two predicates are built): (1) the two predicates are AND-combined and
wrapped as a single parenthesized (`Nested`) group, and with an existing
WHERE clause `w` the new clause is `w AND (group)` — the existing condition
is the left operand, its structure unchanged; (2) without a WHERE clause the
group itself becomes the WHERE clause; (3) with a single predicate built
(tenant filter off) no `Nested` wrap is added and the merge shape is the
same. -/
theorem c2_injection_grouping_and_merge
    (skips : List String) (tid : String) (proj : List SelectItem)
    (nm : List Ident) (rest : FromList) (w : Expr) (htid : tid ≠ "") :
    add_conditions_to_select ⟨true, true, skips⟩ ⟨none, none, none, some tid, none⟩
        (.mk proj (.cons (.mk (.table nm none)) rest) (some w)) =
      .mk proj (.cons (.mk (.table nm none)) rest)
        (some (.binaryOp w .and
          (.nested (.binaryOp (delete_cond none) .and (tenant_cond none tid))))) ∧
    add_conditions_to_select ⟨true, true, skips⟩ ⟨none, none, none, some tid, none⟩
        (.mk proj (.cons (.mk (.table nm none)) rest) none) =
      .mk proj (.cons (.mk (.table nm none)) rest)
        (some (.nested (.binaryOp (delete_cond none) .and (tenant_cond none tid)))) ∧
    add_conditions_to_select ⟨true, false, skips⟩ ⟨none, none, none, some tid, none⟩
        (.mk proj (.cons (.mk (.table nm none)) rest) (some w)) =
      .mk proj (.cons (.mk (.table nm none)) rest)
        (some (.binaryOp w .and (delete_cond none))) := by
  refine ⟨?_, ?_, ?_⟩ <;>
    simp [add_conditions_to_select, extract_table_alias_or_name, build_conditions,
      combine_conditions, create_field_expr, delete_cond, tenant_cond, htid]

/-- Witness for C2: the merge-with-existing-WHERE part at a concrete select. -/
theorem c2_injection_grouping_and_merge_witness :
    add_conditions_to_select ⟨true, true, []⟩ ⟨none, none, none, some "acme", none⟩
        (.mk [] (.cons (.mk (.table [] none)) .nil) (some (.raw "p"))) =
      .mk [] (.cons (.mk (.table [] none)) .nil)
        (some (.binaryOp (.raw "p") .and
          (.nested (.binaryOp (delete_cond none) .and (tenant_cond none "acme"))))) :=
  (c2_injection_grouping_and_merge [] "acme" [] [] .nil (.raw "p") (by decide)).1

/-- C3: when the first FROM relation is a table reference with an alias,
every injected predicate's column is qualified by the alias (spelled out:
`av.delete_flag` and `av.tenant_id` as compound identifiers); with no alias
the bare column identifiers are used; concretely, the spec's aliased example
gains `t.delete_flag = 0`, never an unqualified `delete_flag`. -/
theorem c3_alias_qualifies_injected_columns
    (skips : List String) (tid : String) (proj : List SelectItem)
    (nm : List Ident) (rest : FromList) (av : String) (htid : tid ≠ "") :
    (add_conditions_to_select ⟨true, true, skips⟩ ⟨none, none, none, some tid, none⟩
        (.mk proj (.cons (.mk (.table nm (some ⟨⟨av, none⟩⟩))) rest) none) =
      .mk proj (.cons (.mk (.table nm (some ⟨⟨av, none⟩⟩))) rest)
        (some (.nested (.binaryOp
          (.binaryOp (.compoundIdentifier [⟨av, none⟩, ⟨"delete_flag", none⟩]) .eq
            (.value (.number "0" false))) .and
          (.binaryOp (.compoundIdentifier [⟨av, none⟩, ⟨"tenant_id", none⟩]) .eq
            (.value (.singleQuotedString tid))))))) ∧
    (add_conditions_to_select ⟨true, true, skips⟩ ⟨none, none, none, some tid, none⟩
        (.mk proj (.cons (.mk (.table nm none)) rest) none) =
      .mk proj (.cons (.mk (.table nm none)) rest)
        (some (.nested (.binaryOp
          (.binaryOp (.identifier ⟨"delete_flag", none⟩) .eq
            (.value (.number "0" false))) .and
          (.binaryOp (.identifier ⟨"tenant_id", none⟩) .eq
            (.value (.singleQuotedString tid))))))) ∧
    before_query hookSD ctx0 parseC3 "SELECT t.* FROM t AS t WHERE t.parent_id IS NULL" =
      .ok (some "SELECT t.* FROM t AS t WHERE t.parent_id IS NULL AND t.delete_flag = 0") := by
  refine ⟨?_, ?_, rfl⟩ <;>
    simp [add_conditions_to_select, extract_table_alias_or_name, build_conditions,
      combine_conditions, create_field_expr, renderIdent, htid]

/-- Witness for C3: the aliased part at a concrete select with alias `u`. -/
theorem c3_alias_qualifies_injected_columns_witness :
    add_conditions_to_select ⟨true, true, []⟩ ⟨none, none, none, some "acme", none⟩
        (.mk [] (.cons (.mk (.table [⟨"t", none⟩] (some ⟨⟨"u", none⟩⟩))) .nil) none) =
      .mk [] (.cons (.mk (.table [⟨"t", none⟩] (some ⟨⟨"u", none⟩⟩))) .nil)
        (some (.nested (.binaryOp
          (.binaryOp (.compoundIdentifier [⟨"u", none⟩, ⟨"delete_flag", none⟩]) .eq
            (.value (.number "0" false))) .and
          (.binaryOp (.compoundIdentifier [⟨"u", none⟩, ⟨"tenant_id", none⟩]) .eq
            (.value (.singleQuotedString "acme")))))) :=
  (c3_alias_qualifies_injected_columns [] "acme" [] [⟨"t", none⟩] .nil "u" (by decide)).1

/-- C5: with tenant filtering enabled, a non-empty tenant id `tid` yields the
appended predicate `tenant_id = '<tid>'` — alias-qualified when an alias
exists — with the value as a single-quoted SQL string literal (concretely
rendered `tenant_id = 'acme'`); with an absent (`none`) or empty tenant id no
tenant predicate is injected (here: soft-delete off, so the select is
returned entirely unchanged). -/
theorem c5_tenant_predicate_only_when_nonempty
    (skips : List String) (tid : String) (proj : List SelectItem)
    (nm : List Ident) (rest : FromList) (av : String) (htid : tid ≠ "") :
    (add_conditions_to_select ⟨false, true, skips⟩ ⟨none, none, none, some tid, none⟩
        (.mk proj (.cons (.mk (.table nm none)) rest) none) =
      .mk proj (.cons (.mk (.table nm none)) rest)
        (some (.binaryOp (.identifier ⟨"tenant_id", none⟩) .eq
          (.value (.singleQuotedString tid))))) ∧
    (add_conditions_to_select ⟨false, true, skips⟩ ⟨none, none, none, some tid, none⟩
        (.mk proj (.cons (.mk (.table nm (some ⟨⟨av, none⟩⟩))) rest) none) =
      .mk proj (.cons (.mk (.table nm (some ⟨⟨av, none⟩⟩))) rest)
        (some (.binaryOp (.compoundIdentifier [⟨av, none⟩, ⟨"tenant_id", none⟩]) .eq
          (.value (.singleQuotedString tid))))) ∧
    (∀ (ctx : AutoFieldContext) (s : Select), ctx.tenant_id = none →
      add_conditions_to_select ⟨false, true, skips⟩ ctx s = s) ∧
    (∀ s : Select,
      add_conditions_to_select ⟨false, true, skips⟩ ⟨none, none, none, some "", none⟩ s = s) ∧
    before_query hookT ctxAcme parseC5 "SELECT * FROM t" =
      .ok (some "SELECT * FROM t WHERE tenant_id = 'acme'") := by
  refine ⟨?_, ?_, ?_, ?_, rfl⟩
  · simp [add_conditions_to_select, extract_table_alias_or_name, build_conditions,
      combine_conditions, create_field_expr, htid]
  · simp [add_conditions_to_select, extract_table_alias_or_name, build_conditions,
      combine_conditions, create_field_expr, renderIdent, htid]
  · intro ctx s hnone
    simp [add_conditions_to_select, build_conditions, combine_conditions, hnone]
  · intro s
    simp [add_conditions_to_select, build_conditions, combine_conditions]

/-- Witness for C5: the unaliased non-empty-tenant part at a concrete select. -/
theorem c5_tenant_predicate_only_when_nonempty_witness :
    add_conditions_to_select ⟨false, true, []⟩ ⟨none, none, none, some "acme", none⟩
        (.mk [] (.cons (.mk (.table [⟨"t", none⟩] none)) .nil) none) =
      .mk [] (.cons (.mk (.table [⟨"t", none⟩] none)) .nil)
        (some (.binaryOp (.identifier ⟨"tenant_id", none⟩) .eq
          (.value (.singleQuotedString "acme")))) :=
  (c5_tenant_predicate_only_when_nonempty [] "acme" [] [⟨"t", none⟩] .nil "x" (by decide)).1

/-- `SELECT * FROM Users` (mixed case table name). -/
def qUsersMixed : Query :=
  .mk (.selectBody (.mk [.wildcard]
    (.cons (.mk (.table [⟨"Users", none⟩] none)) .nil) none))

/-- Parse outcome of `SELECT * FROM Users`. -/
def parseC6 : String → Except DbErr (List Statement) := fun sql =>
  if sql = "SELECT * FROM Users" then .ok [.query qUsersMixed] else .error "unparsed"

/-- Membership after filtering away one element (the skip-set removal). -/
theorem contains_filter_ne (l : List String) (k x : String) :
    (l.filter (fun t => t != k)).contains x = true ↔ (x ≠ k ∧ l.contains x = true) := by
  simp [List.mem_filter, and_comm]

/-- C6: `add_skip_table`, `remove_skip_table` and the skip lookup all
normalize to lowercase: (1) after adding `t`, every name with the same
lowercasing is skipped; (2) after removing `t`, a name is skipped exactly
when its lowercasing differs from `t`'s and it was skipped before; (3) every
parsed SELECT whose resolved driving table is skip-listed makes the rewrite
return the original SQL text unchanged (`before_query` reports no change);
(4) concretely, adding `USERS` makes `SELECT * FROM Users` pass unchanged. -/
theorem c6_skip_list_case_insensitive_unchanged :
    (∀ (h : DefaultQueryHook) (t u : String), asciiLower t = asciiLower u →
      should_skip_table (add_skip_table h t) u = true) ∧
    (∀ (h : DefaultQueryHook) (t u : String),
      should_skip_table (remove_skip_table h t) u = true ↔
        (asciiLower u ≠ asciiLower t ∧ should_skip_table h u = true)) ∧
    (∀ (h : DefaultQueryHook) (ctx : AutoFieldContext)
       (parse : String → Except DbErr (List Statement)) (sql : String)
       (q : Query) (tn : String) (rest : List Statement),
      parse sql = .ok (.query q :: rest) → extract_table_name q = some tn →
      should_skip_table h tn = true →
      add_default_conditions h ctx (parse sql) sql = .ok sql ∧
      before_query h ctx parse sql = .ok none) ∧
    before_query (add_skip_table hookST "USERS") ctxAcme parseC6 "SELECT * FROM Users" =
      .ok none := by
  refine ⟨?_, ?_, ?_, rfl⟩
  · intro h t u hl
    simp only [should_skip_table, add_skip_table]
    split
    · next hc => rw [← hl]; exact hc
    · simp [List.contains_cons, ← hl]
  · intro h t u
    simp only [should_skip_table, remove_skip_table]
    exact contains_filter_ne _ _ _
  · intro h ctx parse sql q tn rest hparse hex hskip
    have h1 : add_default_conditions h ctx (parse sql) sql = .ok sql := by
      simp [add_default_conditions, hparse, hex, hskip]
    refine ⟨h1, ?_⟩
    by_cases hsel : strStartsWith (asciiUpper (rustTrim sql)) "SELECT" = true
    · simp [before_query, hsel, h1]
    · simp only [Bool.not_eq_true] at hsel
      simp [before_query, hsel]

/-- Witness for C6: the skip branch at `SELECT * FROM Users` with skip entry
`USERS`. -/
theorem c6_skip_list_case_insensitive_unchanged_witness :
    add_default_conditions (add_skip_table hookST "USERS") ctxAcme
        (parseC6 "SELECT * FROM Users") "SELECT * FROM Users" =
      .ok "SELECT * FROM Users" ∧
    before_query (add_skip_table hookST "USERS") ctxAcme parseC6 "SELECT * FROM Users" =
      .ok none :=
  c6_skip_list_case_insensitive_unchanged.2.2.1 (add_skip_table hookST "USERS") ctxAcme
    parseC6 "SELECT * FROM Users" qUsersMixed "users" [] rfl rfl rfl

/-- `SELECT 1` with no FROM clause (table resolution misses). -/
def qNoFrom : Query :=
  .mk (.selectBody (.mk [.unnamedExpr (.value (.number "1" false))] .nil none))

/-- Parse outcome of `"SELECT  1"` (two spaces; the parser is
whitespace-insensitive, so the tree is the same as for `SELECT 1`). -/
def parseC7 : String → Except DbErr (List Statement) := fun sql =>
  if sql = "SELECT  1" then .ok [.query qNoFrom] else .error "unparsed"

/-- Parse outcome of `SELECT 1`. -/
def parseC7b : String → Except DbErr (List Statement) := fun sql =>
  if sql = "SELECT 1" then .ok [.query qNoFrom] else .error "unparsed"

/-- Counterexample to C7 as stated: `"SELECT  1"` (two spaces) parses, no
driving table can be resolved, yet the caller sees `Some "SELECT 1"` — the
re-rendered statement, not the original SQL text passed through unmodified. -/
theorem c7_counterexample :
    before_query hookSD ctx0 parseC7 "SELECT  1" = .ok (some "SELECT 1") ∧
    some "SELECT 1" ≠ (none : Option String) ∧
    "SELECT 1" ≠ "SELECT  1" := by
  refine ⟨rfl, by simp, by decide⟩

/-- C7 (amended): on a resolution miss no predicate is injected and no error
is returned, but the caller-visible outcome is the *re-rendered* first
statement: `add_default_conditions` returns the rendering of the untouched
parse tree, and `before_query` reports it as a change exactly when that
rendering differs textually from the input (and as "unchanged" otherwise). -/
theorem c7_resolution_miss_renders_unmodified_tree
    (h : DefaultQueryHook) (ctx : AutoFieldContext)
    (parse : String → Except DbErr (List Statement)) (sql : String)
    (q : Query) (rest : List Statement)
    (hparse : parse sql = .ok (.query q :: rest))
    (hmiss : extract_table_name q = none)
    (hsel : strStartsWith (asciiUpper (rustTrim sql)) "SELECT" = true) :
    add_default_conditions h ctx (parse sql) sql = .ok (renderStatement (.query q)) ∧
    before_query h ctx parse sql =
      (if renderStatement (.query q) ≠ sql
       then .ok (some (renderStatement (.query q))) else .ok none) := by
  have h1 : add_default_conditions h ctx (parse sql) sql =
      .ok (renderStatement (.query q)) := by
    simp [add_default_conditions, hparse, hmiss]
  exact ⟨h1, by simp [before_query, hsel, h1]⟩

/-- Witness for C7 (amended): `SELECT 1` round-trips to its own rendering,
so it is reported as unchanged. -/
theorem c7_resolution_miss_renders_unmodified_tree_witness :
    add_default_conditions hookSD ctx0 (parseC7b "SELECT 1") "SELECT 1" =
      .ok (renderStatement (.query qNoFrom)) ∧
    before_query hookSD ctx0 parseC7b "SELECT 1" =
      (if renderStatement (.query qNoFrom) ≠ "SELECT 1"
       then .ok (some (renderStatement (.query qNoFrom))) else .ok none) :=
  c7_resolution_miss_renders_unmodified_tree hookSD ctx0 parseC7b "SELECT 1"
    qNoFrom [] rfl rfl rfl

/-- C8: the resolved driving table name is the lowercased last segment of the
(possibly compound) name with a surrounding pair of double quotes stripped:
(1) in general, for an unquoted last segment (no surrounding quotes after
lowercasing) the result is its lowercasing, whatever the leading segments
and alias are; (2) the quoted reference `"Users"` resolves to `users`,
(3) the same name as the unquoted `Users`. -/
theorem c8_table_name_lowercased_unquoted
    (proj : List SelectItem) (rest : FromList) (sel : Option Expr)
    (ns : List Ident) (v : String) (al : Option TableAlias)
    (hq : (strStartsWith (asciiLower v) "\"" && strEndsWith (asciiLower v) "\"") = false)
    (hv : asciiLower v ≠ "") :
    extract_table_name_from_set_expr (.selectBody (.mk proj
        (.cons (.mk (.table (ns ++ [⟨v, none⟩]) al)) rest) sel)) =
      some (asciiLower v) ∧
    extract_table_name_from_set_expr (.selectBody (.mk []
        (.cons (.mk (.table [⟨"Users", some '"'⟩] none)) .nil) none)) =
      some "users" ∧
    extract_table_name_from_set_expr (.selectBody (.mk []
        (.cons (.mk (.table [⟨"Users", none⟩] none)) .nil) none)) =
      some "users" := by
  refine ⟨?_, rfl, rfl⟩
  simp [extract_table_name_from_set_expr, List.getLast?_concat, renderIdent, hq, hv]

/-- Witness for C8: the general part at the compound name `db.Users`. -/
theorem c8_table_name_lowercased_unquoted_witness :
    extract_table_name_from_set_expr (.selectBody (.mk []
        (.cons (.mk (.table ([⟨"db", none⟩] ++ [⟨"Users", none⟩]) none)) .nil) none)) =
      some (asciiLower "Users") ∧
    extract_table_name_from_set_expr (.selectBody (.mk []
        (.cons (.mk (.table [⟨"Users", some '"'⟩] none)) .nil) none)) =
      some "users" ∧
    extract_table_name_from_set_expr (.selectBody (.mk []
        (.cons (.mk (.table [⟨"Users", none⟩] none)) .nil) none)) =
      some "users" :=
  c8_table_name_lowercased_unquoted [] .nil none [⟨"db", none⟩] "Users" none rfl
    (by decide)

/-- `SELECT * FROM users`. -/
def qUsers : Query :=
  .mk (.selectBody (.mk [.wildcard]
    (.cons (.mk (.table [⟨"users", none⟩] none)) .nil) none))

/-- Parse outcome of the two-statement input
`SELECT * FROM users; DELETE FROM users`. -/
def parseC9 : String → Except DbErr (List Statement) := fun sql =>
  if sql = "SELECT * FROM users; DELETE FROM users"
  then .ok [.query qUsers, .other "DELETE FROM users"] else .error "unparsed"

/-- The soft-delete hook with `users` skip-listed. -/
def hookSkipUsers : DefaultQueryHook := add_skip_table hookSD "users"

/-- Counterexample to C9 as stated: with the first statement's table
skip-listed, a two-statement input is returned as the *full original text* —
the second statement is still present, so the output is not the rendering of
only the first statement (neither untouched nor with predicates injected). -/
theorem c9_counterexample :
    add_default_conditions hookSkipUsers ctx0
        (.ok [.query qUsers, .other "DELETE FROM users"])
        "SELECT * FROM users; DELETE FROM users" =
      .ok "SELECT * FROM users; DELETE FROM users" ∧
    "SELECT * FROM users; DELETE FROM users" ≠ renderStatement (.query qUsers) ∧
    "SELECT * FROM users; DELETE FROM users" ≠
      renderStatement (.query (add_conditions_to_query hookSkipUsers ctx0 qUsers)) := by
  exact ⟨rfl, by decide, by decide⟩

/-- C9 (amended): the rewrite processes only the first parsed statement —
its output on a multi-statement parse equals its output had the first
statement been parsed alone.  Outside the skip branch this is the rendering
of only the first statement, as in the concrete two-statement example, whose
output drops the trailing `DELETE`; in the skip branch it is the full
original input text (see the counterexample). -/
theorem c9_only_first_statement_processed :
    (∀ (h : DefaultQueryHook) (ctx : AutoFieldContext) (sql : String)
       (s1 : Statement) (rest : List Statement),
      add_default_conditions h ctx (.ok (s1 :: rest)) sql =
        add_default_conditions h ctx (.ok [s1]) sql) ∧
    before_query hookSD ctx0 parseC9 "SELECT * FROM users; DELETE FROM users" =
      .ok (some "SELECT * FROM users WHERE delete_flag = 0") := by
  exact ⟨fun h ctx sql s1 rest => rfl, rfl⟩

end AutoFieldTrait
